import Mathlib

/-!
Protogame, `Code/Game/Main_Win32.cpp`

A shallow embedding of the Win32 bootstrap of Protogame: the window placement
computed by `CreateOpenGLWindow`, its OpenGL context handshake, the window
procedure `WindowsMessageHandlingProcedure`, the frame driver (`RunMessagePump`,
`Update`, `Render`, `RunFrame`, the loop of `WinMain`) and the lifecycle
functions `Initialize`, `EngineCleanup` and `Shutdown`.

Conventions of the embedding.

* `float` arithmetic is read exactly, over `ℚ`; the literal `0.85f` is the
  rational `85/100`.  The conversion `(int)f` is truncation toward zero.
* `LONG`/`int` fields are `Int`; `WPARAM`/`UINT` values are `Nat`, and the cast
  `(unsigned char)wParam` is `wParam % 256`.
* Global variables are fields of explicit state records; calls into the engine
  subsystems and into the platform are recorded, in order, in a trace.
-/

namespace Protogame

/-! ## Window placement (`CreateOpenGLWindow`, lines 132-170) -/

/-- Modelled from the spec: `Vector2` (declared in `Engine/Math/Vector2.hpp`,
which is not among the sources) is a pair of `float` components; the operators
used by `CreateOpenGLWindow` act component-wise. -/
structure Vector2 where
  x : ℚ
  y : ℚ
deriving DecidableEq

/-- Component-wise `Vector2 * float`. -/
def Vector2.scale (v : Vector2) (s : ℚ) : Vector2 := ⟨v.x * s, v.y * s⟩

/-- Component-wise `Vector2 - Vector2`. -/
def Vector2.sub (a b : Vector2) : Vector2 := ⟨a.x - b.x, a.y - b.y⟩

/-- The Win32 `RECT`. -/
structure RECT where
  left : Int
  top : Int
  right : Int
  bottom : Int
deriving DecidableEq

/-- The C++ conversion `(int)f`: truncation toward zero. -/
def toInt (f : ℚ) : Int := if 0 ≤ f then ⌊f⌋ else ⌈f⌉

/-- The literal `0.85f` of `float maxWindowPercentage = 0.85f;`. -/
def maxWindowPercentage : ℚ := 85 / 100

/-- The local `Vector2 desktopSize = Vector2(desktopRect.right - desktopRect.left,
desktopRect.bottom - desktopRect.top);` -/
def desktopSize (desktopRect : RECT) : Vector2 :=
  ⟨((desktopRect.right - desktopRect.left : Int) : ℚ),
   ((desktopRect.bottom - desktopRect.top : Int) : ℚ)⟩

/-- The local `Vector2 maxWindowSize = desktopSize * maxWindowPercentage;` -/
def maxWindowSize (desktopRect : RECT) : Vector2 :=
  (desktopSize desktopRect).scale maxWindowPercentage

/-- The local `float desiredAspect = (float)WINDOW_PHYSICAL_WIDTH / (float)WINDOW_PHYSICAL_HEIGHT;` -/
def desiredAspect (physW physH : Int) : ℚ := (physW : ℚ) / (physH : ℚ)

/-- The size of the window before truncation (lines 139-150): start from
`maxWindowSize` and shrink the height when the desired aspect is wider than the
aspect of `maxWindowSize`, the width otherwise. -/
def windowSize (desktopRect : RECT) (physW physH : Int) : Vector2 :=
  let maxSize := maxWindowSize desktopRect
  let maxWindowAspect := maxSize.x / maxSize.y
  let aspect := desiredAspect physW physH
  if aspect > maxWindowAspect then
    { maxSize with y := maxSize.x / aspect }
  else
    { maxSize with x := maxSize.y * aspect }

/-- The rectangle `{ (int)left, (int)top, (int)right, (int)bottom }` of line 159,
from the margins of lines 152-157. -/
def centeredRect (desktopRect : RECT) (physW physH : Int) : RECT :=
  let size := windowSize desktopRect physW physH
  let marginDimensions := (desktopSize desktopRect).sub size
  let top := marginDimensions.y / 2
  let left := marginDimensions.x / 2
  let bottom := top + size.y
  let right := left + size.x
  { left := toInt left, top := toInt top, right := toInt right, bottom := toInt bottom }

/-- What the placement part of `CreateOpenGLWindow` leaves behind: the client
rectangle `windowRect` (before `AdjustWindowRectEx`) and the new values of the
globals `WINDOW_PHYSICAL_WIDTH` and `WINDOW_PHYSICAL_HEIGHT`. -/
structure Placement where
  windowRect : RECT
  WINDOW_PHYSICAL_WIDTH : Int
  WINDOW_PHYSICAL_HEIGHT : Int
deriving DecidableEq

/-- Lines 159-170 of `CreateOpenGLWindow`: the centred rectangle, overridden by
`desktopRect` when `g_isFullscreen`, and the recorded physical size. -/
def placeWindow (desktopRect : RECT) (physW physH : Int) (g_isFullscreen : Bool) :
    Placement :=
  let windowRect := centeredRect desktopRect physW physH
  let windowRect := if g_isFullscreen then desktopRect else windowRect
  { windowRect := windowRect
    WINDOW_PHYSICAL_WIDTH := windowRect.right - windowRect.left
    WINDOW_PHYSICAL_HEIGHT := windowRect.bottom - windowRect.top }

/-- The rectangle `GetClientRect` reports for a desktop of the given size. -/
def clientRect (width height : Int) : RECT := ⟨0, 0, width, height⟩

/-! ## Process state and call trace -/

/-- The process-wide subsystem singletons (`X::instance`), in the order in which
`Initialize` constructs them. -/
inductive Subsystem where
  | Renderer
  | ForwardRenderer
  | AudioSystem
  | InputSystem
  | Console
  | UISystem
  | TheGame
deriving DecidableEq

/-- The shared registries flushed by `EngineCleanup`. -/
inductive Registry where
  | Texture
  | BitmapFont
  | EventSystem
deriving DecidableEq

/-- A handle of an OpenGL rendering context (`HGLRC`); `NULL` is `none` of
`Option HGLRC`. -/
abbrev HGLRC := Nat

/-- The calls into the engine subsystems and into the platform that the
functions of `Main_Win32.cpp` make, as they are recorded in the trace. -/
inductive Call where
  | SetProcessDPIAware
  | RegisterClassEx
  | GetClientRect (desktopRect : RECT)
  | AdjustWindowRectEx (windowRect : RECT)
  | CreateWindowEx
  | ShowWindow
  | SetForegroundWindow
  | SetFocus
  | GetDC
  | SetCursor
  | ChoosePixelFormat
  | SetPixelFormat
  | wglCreateContext (result : Option HGLRC)
  | wglMakeCurrent (deviceContextIsNull : Bool) (context : Option HGLRC)
  | wglGetProcAddress (found : Bool)
  | wglDeleteContext (context : Option HGLRC)
  | createContextAttribsARB (attributes : List Int) (result : Option HGLRC)
  | DragAcceptFiles
  | construct (s : Subsystem) (arguments : List Int)
  | CreateDefaultResources
  | AdvanceFrameNumber
  | DispatchMessage (message wParam : Nat)
  | Update (s : Subsystem) (deltaSeconds : ℚ)
  | Render (s : Subsystem)
  | SwapBuffers
  | CleanUp (r : Registry)
  | delete (s : Subsystem)
  | setNull (s : Subsystem)
deriving DecidableEq

/-- The mouse buttons of `InputSystem::MouseButton`. -/
inductive MouseButton where
  | LEFT_MOUSE_BUTTON
  | RIGHT_MOUSE_BUTTON
  | MIDDLE_MOUSE_BUTTON
deriving DecidableEq

/-- Modelled from the spec: the state of `InputSystem`
(`Engine/Input/InputSystem.hpp` is not among the sources): per-key boolean
down-state, per-mouse-button boolean down-state, last wheel delta, last typed
character and current frame number.  Keys are indexed by `unsigned char`
values. -/
structure InputSystem where
  isKeyDown : Nat → Bool
  isMouseDown : MouseButton → Bool
  mouseWheel : Int
  lastPressedChar : Nat
  frameNumber : Nat

/-- Modelled from the spec: `InputSystem::SetKeyDownStatus(code, bool)` stores
the down-state of one key. -/
def InputSystem.SetKeyDownStatus (i : InputSystem) (keyCode : Nat) (isNowDown : Bool) :
    InputSystem :=
  { i with isKeyDown := fun k => if k = keyCode then isNowDown else i.isKeyDown k }

/-- Modelled from the spec: `InputSystem::SetMouseDownStatus(button, bool)`
stores the down-state of one mouse button. -/
def InputSystem.SetMouseDownStatus (i : InputSystem) (button : MouseButton)
    (isNowDown : Bool) : InputSystem :=
  { i with isMouseDown := fun b => if b = button then isNowDown else i.isMouseDown b }

/-- Modelled from the spec: `InputSystem::SetMouseWheelStatus(delta)` records
the signed wheel delta. -/
def InputSystem.SetMouseWheelStatus (i : InputSystem) (zDelta : Int) : InputSystem :=
  { i with mouseWheel := zDelta }

/-- Modelled from the spec: `InputSystem::SetLastPressedChar(code)` records the
last typed character. -/
def InputSystem.SetLastPressedChar (i : InputSystem) (asKey : Nat) : InputSystem :=
  { i with lastPressedChar := asKey }

/-- Modelled from the spec: `InputSystem::AdvanceFrameNumber()` advances the
frame counter of the input subsystem. -/
def InputSystem.AdvanceFrameNumber (i : InputSystem) : InputSystem :=
  { i with frameNumber := i.frameNumber + 1 }

/-- The global variables of `Main_Win32.cpp`, the singleton pointers of the
subsystems, the state of `InputSystem::instance`, the OpenGL context current on
the thread, and the trace of the calls made so far. -/
structure World where
  /-- The global `bool g_isQuitting`. -/
  g_isQuitting : Bool
  /-- The global `bool g_isFullscreen`. -/
  g_isFullscreen : Bool
  /-- The global `int WINDOW_PHYSICAL_WIDTH`. -/
  WINDOW_PHYSICAL_WIDTH : Int
  /-- The global `int WINDOW_PHYSICAL_HEIGHT`. -/
  WINDOW_PHYSICAL_HEIGHT : Int
  /-- The global `HGLRC g_openGLRenderingContext`. -/
  g_openGLRenderingContext : Option HGLRC
  /-- The context that is current on the thread (state of the platform). -/
  currentContext : Option HGLRC
  /-- The state of `InputSystem::instance`. -/
  input : InputSystem
  /-- Whether the pointer `X::instance` is set (not `nullptr`). -/
  instanceSet : Subsystem → Bool
  /-- The function-local `static double s_timeLastFrameStarted` of `Update`;
  `none` until its initialiser has run. -/
  s_timeLastFrameStarted : Option ℚ
  /-- The calls made so far, oldest first. -/
  trace : List Call

/-- Record one call at the end of the trace. -/
def World.log (w : World) (c : Call) : World := { w with trace := w.trace ++ [c] }

/-- The state at process start: the initialisers of lines 33-46, all singleton
pointers null, nothing called yet. -/
def World.initial : World where
  g_isQuitting := false
  g_isFullscreen := false
  WINDOW_PHYSICAL_WIDTH := 1600
  WINDOW_PHYSICAL_HEIGHT := 900
  g_openGLRenderingContext := none
  currentContext := none
  input :=
    { isKeyDown := fun _ => false
      isMouseDown := fun _ => false
      mouseWheel := 0
      lastPressedChar := 0
      frameNumber := 0 }
  instanceSet := fun _ => false
  s_timeLastFrameStarted := none
  trace := []

/-! ## Input translation (`WindowsMessageHandlingProcedure`) -/

/-- The constant `WM_DESTROY` of `winuser.h`. -/
def WM_DESTROY : Nat := 0x0002
/-- The constant `WM_CLOSE` of `winuser.h`. -/
def WM_CLOSE : Nat := 0x0010
/-- The constant `WM_QUIT` of `winuser.h`. -/
def WM_QUIT : Nat := 0x0012
/-- The constant `WM_KEYDOWN` of `winuser.h`. -/
def WM_KEYDOWN : Nat := 0x0100
/-- The constant `WM_KEYUP` of `winuser.h`. -/
def WM_KEYUP : Nat := 0x0101
/-- The constant `WM_CHAR` of `winuser.h`. -/
def WM_CHAR : Nat := 0x0102
/-- The constant `WM_LBUTTONDOWN` of `winuser.h`. -/
def WM_LBUTTONDOWN : Nat := 0x0201
/-- The constant `WM_LBUTTONUP` of `winuser.h`. -/
def WM_LBUTTONUP : Nat := 0x0202
/-- The constant `WM_RBUTTONDOWN` of `winuser.h`. -/
def WM_RBUTTONDOWN : Nat := 0x0204
/-- The constant `WM_RBUTTONUP` of `winuser.h`. -/
def WM_RBUTTONUP : Nat := 0x0205
/-- The constant `WM_MBUTTONDOWN` of `winuser.h`. -/
def WM_MBUTTONDOWN : Nat := 0x0207
/-- The constant `WM_MBUTTONUP` of `winuser.h`. -/
def WM_MBUTTONUP : Nat := 0x0208
/-- The constant `WM_MOUSEWHEEL` of `winuser.h`. -/
def WM_MOUSEWHEEL : Nat := 0x020A
/-- The constant `VK_ESCAPE` of `winuser.h`. -/
def VK_ESCAPE : Nat := 0x1B

/-- The macro `GET_WHEEL_DELTA_WPARAM(wParam)`, that is `(short)HIWORD(wParam)`: bits 16-31
of `wParam` read as a signed 16-bit integer. -/
def GET_WHEEL_DELTA_WPARAM (wParam : Nat) : Int :=
  let hiword := (wParam / 65536) % 65536
  if hiword < 32768 then (hiword : Int) else (hiword : Int) - 65536

/-- The function `HandleMouseWheel(wParam)`. -/
def HandleMouseWheel (wParam : Nat) (w : World) : World :=
  let zDelta := GET_WHEEL_DELTA_WPARAM wParam
  { w with input := w.input.SetMouseWheelStatus zDelta }

/-- What the window procedure returns: the literal `0`, or the result of
`DefWindowProc(windowHandle, wmMessageCode, wParam, lParam)`. -/
inductive LRESULT where
  | zero
  | DefWindowProc (wmMessageCode wParam : Nat)
deriving DecidableEq

/-- The window procedure
`WindowsMessageHandlingProcedure(windowHandle, wmMessageCode, wParam, lParam)`.
`windowHandle` and `lParam` are only passed on to `DefWindowProc` and are left
out; `DefWindowProc` changes none of the state modelled here. -/
def WindowsMessageHandlingProcedure (wmMessageCode wParam : Nat) (w : World) :
    World × LRESULT :=
  let asKey := wParam % 256
  if wmMessageCode = WM_CLOSE ∨ wmMessageCode = WM_DESTROY ∨ wmMessageCode = WM_QUIT then
    ({ w with g_isQuitting := true }, .zero)
  else if wmMessageCode = WM_CHAR then
    ({ w with input := w.input.SetLastPressedChar asKey },
      .DefWindowProc wmMessageCode wParam)
  else if wmMessageCode = WM_KEYDOWN then
    let w := { w with input := w.input.SetKeyDownStatus asKey true }
    if asKey = VK_ESCAPE then
      ({ w with g_isQuitting := true }, .zero)
    else
      (w, .DefWindowProc wmMessageCode wParam)
  else if wmMessageCode = WM_KEYUP then
    ({ w with input := w.input.SetKeyDownStatus asKey false },
      .DefWindowProc wmMessageCode wParam)
  else if wmMessageCode = WM_LBUTTONDOWN then
    ({ w with input := w.input.SetMouseDownStatus .LEFT_MOUSE_BUTTON true },
      .DefWindowProc wmMessageCode wParam)
  else if wmMessageCode = WM_RBUTTONDOWN then
    ({ w with input := w.input.SetMouseDownStatus .RIGHT_MOUSE_BUTTON true },
      .DefWindowProc wmMessageCode wParam)
  else if wmMessageCode = WM_MBUTTONDOWN then
    ({ w with input := w.input.SetMouseDownStatus .MIDDLE_MOUSE_BUTTON true },
      .DefWindowProc wmMessageCode wParam)
  else if wmMessageCode = WM_LBUTTONUP then
    ({ w with input := w.input.SetMouseDownStatus .LEFT_MOUSE_BUTTON false },
      .DefWindowProc wmMessageCode wParam)
  else if wmMessageCode = WM_RBUTTONUP then
    ({ w with input := w.input.SetMouseDownStatus .RIGHT_MOUSE_BUTTON false },
      .DefWindowProc wmMessageCode wParam)
  else if wmMessageCode = WM_MBUTTONUP then
    ({ w with input := w.input.SetMouseDownStatus .MIDDLE_MOUSE_BUTTON false },
      .DefWindowProc wmMessageCode wParam)
  else if wmMessageCode = WM_MOUSEWHEEL then
    (HandleMouseWheel wParam w, .DefWindowProc wmMessageCode wParam)
  else
    (w, .DefWindowProc wmMessageCode wParam)

/-! ## Frame pump and frame driver -/

/-- A queued window message (`MSG`), reduced to the fields the window procedure
reads. -/
structure MSG where
  message : Nat
  wParam : Nat
deriving DecidableEq

/-- The call `DispatchMessage(&queuedMessage)` for a message of the window: the call of the
window procedure registered in `windowClassDescription.lpfnWndProc`. -/
def DispatchMessage (m : MSG) (w : World) : World :=
  (WindowsMessageHandlingProcedure m.message m.wParam
    (w.log (.DispatchMessage m.message m.wParam))).1

/-- The function `RunMessagePump()`, on the messages that are queued when it is called
(`TranslateMessage` has already added its character messages): `PeekMessage`
removes them one by one, and the loop breaks when none is left. -/
def RunMessagePump : List MSG → World → World
  | [], w => w
  | queuedMessage :: queue, w => RunMessagePump queue (DispatchMessage queuedMessage w)

/-- What one frame receives from outside: the queued messages and the readings
of `GetCurrentTimeSeconds()`.  `staticInitTime` is the reading taken by the
initialiser of `s_timeLastFrameStarted`, used by the first call of `Update`
only. -/
structure FrameInput where
  queue : List MSG
  staticInitTime : ℚ
  timeNow : ℚ

/-- The function `Update()`: one reading of the clock, then the five subsystem
updates with the same `deltaSeconds`. -/
def Update (f : FrameInput) (w : World) : World :=
  let s_timeLastFrameStarted :=
    match w.s_timeLastFrameStarted with
    | some t => t
    | none => f.staticInitTime
  let timeNow := f.timeNow
  let deltaSeconds := timeNow - s_timeLastFrameStarted
  let w := { w with s_timeLastFrameStarted := some timeNow }
  let w := w.log (.Update .AudioSystem deltaSeconds)
  let w := w.log (.Update .InputSystem deltaSeconds)
  let w := w.log (.Update .Console deltaSeconds)
  let w := w.log (.Update .TheGame deltaSeconds)
  w.log (.Update .UISystem deltaSeconds)

/-- The function `Render()`. -/
def Render (w : World) : World :=
  let w := w.log (.Render .TheGame)
  let w := w.log (.Render .Console)
  w.log .SwapBuffers

/-- The function `RunFrame()`. -/
def RunFrame (f : FrameInput) (w : World) : World :=
  let w := { w with input := w.input.AdvanceFrameNumber }.log .AdvanceFrameNumber
  let w := RunMessagePump f.queue w
  let w := Update f w
  Render w

/-- The loop `while (!g_isQuitting) { RunFrame(); }` of `WinMain`, run on the
inputs of the coming frames.  The result is `none` when the loop is still
running after the last supplied frame. -/
def WinMain.loop : List FrameInput → World → Option World
  | [], w => if w.g_isQuitting then some w else none
  | f :: frames, w => if w.g_isQuitting then some w else WinMain.loop frames (RunFrame f w)

/-! ## Context upgrade handshake and window creation (`CreateOpenGLWindow`) -/

/-- What the platform answers to the queries of `CreateOpenGLWindow`.  The
fields are arbitrary: every behaviour of the desktop and of the OpenGL driver is
covered. -/
structure Platform where
  /-- The rectangle `GetClientRect(GetDesktopWindow(), &desktopRect)` reports. -/
  desktopClientRect : RECT
  /-- The result of `wglCreateContext(g_displayDeviceContext)`; `none` is `NULL`. -/
  wglCreateContext : Option HGLRC
  /-- The function `wglGetProcAddress` resolves for the name
  `wglCreateContextAttribsARB` while a context is current (`none` is `NULL`):
  from the attribute list to the created context, `none` being `NULL`. -/
  wglGetProcAddress : Option (List Int → Option HGLRC)
  /-- The version (major, minor) a context reports. -/
  contextVersion : HGLRC → Nat × Nat

/-- The constant `WGL_CONTEXT_MAJOR_VERSION_ARB` of `wglext.h`. -/
def WGL_CONTEXT_MAJOR_VERSION_ARB : Int := 0x2091
/-- The constant `WGL_CONTEXT_MINOR_VERSION_ARB` of `wglext.h`. -/
def WGL_CONTEXT_MINOR_VERSION_ARB : Int := 0x2092

/-- The array `static const int attributes[]` of lines 220-224; the closing
`NULL` is `0`. -/
def attributes : List Int :=
  [WGL_CONTEXT_MAJOR_VERSION_ARB, 4, WGL_CONTEXT_MINOR_VERSION_ARB, 3, 0]

/-- The value an attribute list (name, value, ..., `0`) gives to one
attribute. -/
def attributeValue (name : Int) : List Int → Option Int
  | n :: v :: rest =>
    if n = 0 then none else if n = name then some v else attributeValue name rest
  | _ => none

/-- The version an attribute list requests; an attribute that is absent
defaults to major 1, minor 0. -/
def requestedVersion (attribs : List Int) : Int × Int :=
  ((attributeValue WGL_CONTEXT_MAJOR_VERSION_ARB attribs).getD 1,
   (attributeValue WGL_CONTEXT_MINOR_VERSION_ARB attribs).getD 0)

/-- Version `v` is at least version `r` (major first, then minor). -/
def versionAtLeast (v : Nat × Nat) (r : Int × Int) : Prop :=
  r.1 < (v.1 : Int) ∨ (r.1 = (v.1 : Int) ∧ r.2 ≤ (v.2 : Int))

instance (v : Nat × Nat) (r : Int × Int) : Decidable (versionAtLeast v r) := by
  unfold versionAtLeast
  exact inferInstance

/-- The call `wglMakeCurrent(deviceContext, context)`, taken to succeed: `context`
becomes the current context of the thread, and with `NULL` no context is
current. -/
def wglMakeCurrent (deviceContextIsNull : Bool) (context : Option HGLRC) (w : World) : World :=
  { w with currentContext := context }.log (.wglMakeCurrent deviceContextIsNull context)

/-- Lines 210-226 of `CreateOpenGLWindow`: the legacy context is created and made
current, the entry point `wglCreateContextAttribsARB` is resolved through it, the
legacy context is released and deleted, and the context created through the
entry point is made current.  None of the results is checked by the code; the
call through an entry point that is `NULL` ends the run (`Except.error`, with
the state reached). -/
def CreateOpenGLWindow.handshake (pf : Platform) (w : World) : Except World World :=
  let w := w.log .ChoosePixelFormat
  let w := w.log .SetPixelFormat
  let w := { w with g_openGLRenderingContext := pf.wglCreateContext }.log
    (.wglCreateContext pf.wglCreateContext)
  let w := wglMakeCurrent false w.g_openGLRenderingContext w
  let createContextAttribsARBpointer :=
    if w.currentContext.isSome then pf.wglGetProcAddress else none
  let w := w.log (.wglGetProcAddress createContextAttribsARBpointer.isSome)
  let w := wglMakeCurrent true none w
  let w := w.log (.wglDeleteContext w.g_openGLRenderingContext)
  match createContextAttribsARBpointer with
  | none => .error w
  | some create =>
    let created := create attributes
    let w := { w with g_openGLRenderingContext := created }.log
      (.createContextAttribsARB attributes created)
    .ok (wglMakeCurrent false w.g_openGLRenderingContext w)

/-- The function `CreateOpenGLWindow(applicationInstanceHandle)`: window class,
placement of the window (`placeWindow`), creation of the window, context
handshake.  The style flags, the title and the pixel format descriptor are
left out. -/
def CreateOpenGLWindow (pf : Platform) (w : World) : Except World World :=
  let w := w.log .RegisterClassEx
  let desktopRect := pf.desktopClientRect
  let w := w.log (.GetClientRect desktopRect)
  let placement :=
    placeWindow desktopRect w.WINDOW_PHYSICAL_WIDTH w.WINDOW_PHYSICAL_HEIGHT w.g_isFullscreen
  let w := { w with
    WINDOW_PHYSICAL_WIDTH := placement.WINDOW_PHYSICAL_WIDTH
    WINDOW_PHYSICAL_HEIGHT := placement.WINDOW_PHYSICAL_HEIGHT }
  let w := w.log (.AdjustWindowRectEx placement.windowRect)
  let w := w.log .CreateWindowEx
  let w := w.log .ShowWindow
  let w := w.log .SetForegroundWindow
  let w := w.log .SetFocus
  let w := w.log .GetDC
  let w := w.log .SetCursor
  match CreateOpenGLWindow.handshake pf w with
  | .error w => .error w
  | .ok w => .ok (w.log .DragAcceptFiles)

/-! ## Lifecycle (`Initialize`, `EngineCleanup`, `Shutdown`) -/

/-- The statement `X::instance = new X(arguments);`.  When the constructor
throws, the statement is left before the assignment: the pointer keeps its
value and the run of the enclosing function ends (`Except.error`). -/
def construct (constructorThrows : Subsystem → Bool) (s : Subsystem) (arguments : List Int)
    (w : World) : Except World World :=
  if constructorThrows s then
    .error w
  else
    .ok ({ w with instanceSet := fun t => if t = s then true else w.instanceSet t }.log
      (.construct s arguments))

/-- The function `Initialize(applicationInstanceHandle)`.  `constructorThrows`
tells which constructors fail. -/
def Initialize (pf : Platform) (constructorThrows : Subsystem → Bool) (w : World) :
    Except World World := do
  let w := w.log .SetProcessDPIAware
  let w ← CreateOpenGLWindow pf w
  let w ← construct constructorThrows .Renderer
    [w.WINDOW_PHYSICAL_WIDTH, w.WINDOW_PHYSICAL_HEIGHT] w
  let w := w.log .CreateDefaultResources
  let w ← construct constructorThrows .ForwardRenderer [] w
  let w ← construct constructorThrows .AudioSystem [] w
  let w ← construct constructorThrows .InputSystem
    [0, w.WINDOW_PHYSICAL_WIDTH, w.WINDOW_PHYSICAL_HEIGHT] w
  let w ← construct constructorThrows .Console [] w
  let w ← construct constructorThrows .UISystem [] w
  construct constructorThrows .TheGame [] w

/-- The state in which a run ended, by return or not. -/
def outcome : Except World World → World
  | .ok w => w
  | .error w => w

/-- The function `EngineCleanup()`. -/
def EngineCleanup (w : World) : World :=
  let w := w.log (.CleanUp .Texture)
  let w := w.log (.CleanUp .BitmapFont)
  w.log (.CleanUp .EventSystem)

/-- The statement `delete X::instance;`: the object is destroyed, unless the
pointer is null, in which case nothing happens.  The pointer keeps its value. -/
def deleteInstance (s : Subsystem) (w : World) : World :=
  if w.instanceSet s then w.log (.delete s) else w

/-- The statement `X::instance = nullptr;`. -/
def setInstanceNull (s : Subsystem) (w : World) : World :=
  { w with instanceSet := fun t => if t = s then false else w.instanceSet t }.log (.setNull s)

/-- The function `Shutdown()`. -/
def Shutdown (w : World) : World :=
  let w := EngineCleanup w
  let w := deleteInstance .TheGame w
  let w := setInstanceNull .TheGame w
  let w := deleteInstance .UISystem w
  let w := setInstanceNull .UISystem w
  let w := deleteInstance .Console w
  let w := setInstanceNull .Console w
  let w := deleteInstance .InputSystem w
  let w := setInstanceNull .InputSystem w
  let w := deleteInstance .AudioSystem w
  let w := setInstanceNull .AudioSystem w
  let w := deleteInstance .ForwardRenderer w
  let w := setInstanceNull .ForwardRenderer w
  let w := deleteInstance .Renderer w
  setInstanceNull .Renderer w

/-- The subsystems constructed in a trace, in order. -/
def constructed : List Call → List Subsystem
  | [] => []
  | .construct s _ :: rest => s :: constructed rest
  | _ :: rest => constructed rest

/-- The subsystems deleted in a trace, in order. -/
def deleted : List Call → List Subsystem
  | [] => []
  | .delete s :: rest => s :: deleted rest
  | _ :: rest => deleted rest

/-- The last message of a sequence that is for key `k`, the key of a message
being the low byte of its `wParam`. -/
def lastMessageFor (k : Nat) (msgs : List MSG) : Option MSG :=
  msgs.reverse.find? (fun m => m.wParam % 256 = k)

/-! ## Concrete inputs used by the witnesses -/

/-- A replay: key 65 down, key 66 down, key 65 up. -/
def exampleKeys : List MSG := [⟨WM_KEYDOWN, 65⟩, ⟨WM_KEYDOWN, 66⟩, ⟨WM_KEYUP, 65⟩]

/-- A frame in which a key 65 goes down and then escape is pressed. -/
def escapeFrame : FrameInput :=
  { queue := [⟨WM_KEYDOWN, 65⟩, ⟨WM_KEYDOWN, VK_ESCAPE⟩], staticInitTime := 0, timeNow := 1 / 60 }

/-- A frame without messages. -/
def idleFrame : FrameInput := { queue := [], staticInitTime := 0, timeNow := 2 / 60 }

/-- The order in which `Initialize` constructs the subsystems (lines 289-296). -/
def constructionOrder : List Subsystem :=
  [.Renderer, .ForwardRenderer, .AudioSystem, .InputSystem, .Console, .UISystem, .TheGame]

/-- What deleting and nulling one singleton pointer adds to the trace: the
deletion only when the pointer is set, then the nulling. -/
def deletionCalls (isSet : Subsystem → Bool) (s : Subsystem) : List Call :=
  if isSet s then [.delete s, .setNull s] else [.setNull s]

/-- A platform on a desktop of 1920x1080 whose driver creates contexts up to
version 4.6: legacy context `1`, modern context `2`. -/
def capablePlatform : Platform where
  desktopClientRect := clientRect 1920 1080
  wglCreateContext := some 1
  wglGetProcAddress := some (fun attribs =>
    if versionAtLeast (4, 6) (requestedVersion attribs) then some 2 else none)
  contextVersion := fun c => if c = 2 then (4, 6) else (1, 1)

/-- A run of `Initialize` in which the constructor of `AudioSystem` throws. -/
def audioThrows : Subsystem → Bool := fun s => decide (s = .AudioSystem)

/-- State `w` is reached from `w0` by constructing the first `n` subsystems of
the construction order, in that order, and nothing else: their pointers are
set on top of those set in `w0`. -/
def builtPrefix (n : Nat) (w0 w : World) : Prop :=
  (∀ s, w.instanceSet s = (decide (s ∈ constructionOrder.take n) || w0.instanceSet s)) ∧
  ∃ calls, w.trace = w0.trace ++ calls ∧ constructed calls = constructionOrder.take n

/-- A run of `Initialize` in which no constructor throws. -/
def noneThrows : Subsystem → Bool := fun _ => false

/-- The state `Initialize` returns on `capablePlatform` from process start. -/
def initializedWorld : World := outcome (Initialize capablePlatform noneThrows World.initial)

/-- The state in which `Initialize` ends on `capablePlatform` from process start
when the constructor of `AudioSystem` throws. -/
def audioFailedWorld : World := outcome (Initialize capablePlatform audioThrows World.initial)

/-! ## Window placement: lemmas -/

/-- C8. With `g_isFullscreen` true, for every desktop rectangle and every desired
width and height, the window rectangle is the desktop rectangle and the
recorded physical width and height are the width and height of the desktop. -/
theorem placeWindow_fullscreen (desktopRect : RECT) (physW physH : Int) :
    (placeWindow desktopRect physW physH true).windowRect = desktopRect ∧
    (placeWindow desktopRect physW physH true).WINDOW_PHYSICAL_WIDTH
      = desktopRect.right - desktopRect.left ∧
    (placeWindow desktopRect physW physH true).WINDOW_PHYSICAL_HEIGHT
      = desktopRect.bottom - desktopRect.top := by
  simp [placeWindow]

/-! ## Input translation: lemmas -/

/-- The window procedure never touches the trace. -/
theorem WindowsMessageHandlingProcedure_trace (wmMessageCode wParam : Nat) (w : World) :
    (WindowsMessageHandlingProcedure wmMessageCode wParam w).1.trace = w.trace := by
  unfold WindowsMessageHandlingProcedure HandleMouseWheel
  simp only [apply_ite Prod.fst, apply_ite World.trace, ite_self]

/-- The window procedure never resets `g_isQuitting`. -/
theorem WindowsMessageHandlingProcedure_keeps_quitting (wmMessageCode wParam : Nat) (w : World)
    (h : w.g_isQuitting = true) :
    (WindowsMessageHandlingProcedure wmMessageCode wParam w).1.g_isQuitting = true := by
  unfold WindowsMessageHandlingProcedure HandleMouseWheel
  simp only [apply_ite Prod.fst, apply_ite World.g_isQuitting, h, ite_self]

/-- A key-down whose low byte is `VK_ESCAPE` sets `g_isQuitting`. -/
theorem WindowsMessageHandlingProcedure_escape (wParam : Nat) (w : World)
    (h : wParam % 256 = VK_ESCAPE) :
    (WindowsMessageHandlingProcedure WM_KEYDOWN wParam w).1.g_isQuitting = true := by
  simp [WindowsMessageHandlingProcedure, WM_KEYDOWN, WM_CLOSE, WM_DESTROY, WM_QUIT, WM_CHAR, h]

/-- The key state after one key-down or key-up message. -/
theorem DispatchMessage_isKeyDown (m : MSG) (w : World) (k : Nat)
    (hm : m.message = WM_KEYDOWN ∨ m.message = WM_KEYUP) :
    (DispatchMessage m w).input.isKeyDown k =
      if k = m.wParam % 256 then decide (m.message = WM_KEYDOWN) else w.input.isKeyDown k := by
  rcases hm with hm | hm
  · simp only [DispatchMessage, WindowsMessageHandlingProcedure, hm]
    by_cases hk : m.wParam % 256 = VK_ESCAPE <;>
      simp [WM_KEYDOWN, WM_CLOSE, WM_DESTROY, WM_QUIT, WM_CHAR, hk, World.log,
        InputSystem.SetKeyDownStatus]
  · simp [DispatchMessage, WindowsMessageHandlingProcedure, hm, WM_KEYDOWN, WM_KEYUP, WM_CLOSE,
      WM_DESTROY, WM_QUIT, WM_CHAR, World.log, InputSystem.SetKeyDownStatus]

theorem lastMessageFor_cons (k : Nat) (m : MSG) (msgs : List MSG) :
    lastMessageFor k (m :: msgs) =
      match lastMessageFor k msgs with
      | some m' => some m'
      | none => if m.wParam % 256 = k then some m else none := by
  unfold lastMessageFor
  rw [List.reverse_cons, List.find?_append]
  cases h : List.find? (fun m => decide (m.wParam % 256 = k)) msgs.reverse with
  | some m' => simp
  | none =>
    by_cases hk : m.wParam % 256 = k <;> simp [List.find?, hk]

/-- The key state after replaying key-down and key-up messages is decided by the
last message for the key. -/
theorem RunMessagePump_isKeyDown (msgs : List MSG) (w : World) (k : Nat)
    (hmsgs : ∀ m ∈ msgs, m.message = WM_KEYDOWN ∨ m.message = WM_KEYUP) :
    (RunMessagePump msgs w).input.isKeyDown k =
      match lastMessageFor k msgs with
      | some m => decide (m.message = WM_KEYDOWN)
      | none => w.input.isKeyDown k := by
  induction msgs generalizing w with
  | nil => simp [RunMessagePump, lastMessageFor]
  | cons m rest ih =>
    have hm := hmsgs m (List.mem_cons_self _ _)
    have hrest : ∀ m' ∈ rest, m'.message = WM_KEYDOWN ∨ m'.message = WM_KEYUP :=
      fun m' h' => hmsgs m' (List.mem_cons_of_mem _ h')
    rw [RunMessagePump, ih (DispatchMessage m w) hrest, lastMessageFor_cons]
    cases hl : lastMessageFor k rest with
    | some m' => rfl
    | none =>
      simp only []
      rw [DispatchMessage_isKeyDown m w k hm]
      by_cases hk : m.wParam % 256 = k
      · simp [hk]
      · have hk' : ¬ k = m.wParam % 256 := fun h => hk h.symm
        simp [hk, hk']

/-- C3. For every finite sequence of key-down and key-up messages replayed
from any initial state, a key (the low byte of `wParam`) is down afterwards
iff the last message for it is a key-down, a key without a message keeps its
initial state, and a key whose last message is a key-up is not down. -/
theorem key_state_last_write_wins (msgs : List MSG) (w : World) (k : Nat)
    (hmsgs : ∀ m ∈ msgs, m.message = WM_KEYDOWN ∨ m.message = WM_KEYUP) :
    (∀ m, lastMessageFor k msgs = some m →
      ((RunMessagePump msgs w).input.isKeyDown k = true ↔ m.message = WM_KEYDOWN)) ∧
    (lastMessageFor k msgs = none →
      (RunMessagePump msgs w).input.isKeyDown k = w.input.isKeyDown k) ∧
    (∀ m, lastMessageFor k msgs = some m → m.message = WM_KEYUP →
      (RunMessagePump msgs w).input.isKeyDown k = false) := by
  have h := RunMessagePump_isKeyDown msgs w k hmsgs
  refine ⟨?_, ?_, ?_⟩
  · intro m hm
    rw [h, hm]
    simp
  · intro hn
    rw [h, hn]
  · intro m hm hup
    rw [h, hm]
    simp [hup, WM_KEYUP, WM_KEYDOWN]

/-- C10. For key-down, key-up and character messages only the low 8 bits of
`wParam` matter: two values congruent modulo 256 give the same key state, last
typed character and quit flag; a key-down with `wParam = 256 + VK_ESCAPE` sets
the quit flag, and a character message with `wParam` above 255 records
`wParam % 256`. -/
theorem wParam_low_byte_only (wmMessageCode wParam₁ wParam₂ : Nat) (w : World)
    (hcode : wmMessageCode = WM_KEYDOWN ∨ wmMessageCode = WM_KEYUP ∨ wmMessageCode = WM_CHAR)
    (h : wParam₁ % 256 = wParam₂ % 256) :
    ((WindowsMessageHandlingProcedure wmMessageCode wParam₁ w).1.input.isKeyDown
      = (WindowsMessageHandlingProcedure wmMessageCode wParam₂ w).1.input.isKeyDown ∧
     (WindowsMessageHandlingProcedure wmMessageCode wParam₁ w).1.input.lastPressedChar
      = (WindowsMessageHandlingProcedure wmMessageCode wParam₂ w).1.input.lastPressedChar ∧
     (WindowsMessageHandlingProcedure wmMessageCode wParam₁ w).1.g_isQuitting
      = (WindowsMessageHandlingProcedure wmMessageCode wParam₂ w).1.g_isQuitting) ∧
    (WindowsMessageHandlingProcedure WM_KEYDOWN (256 + VK_ESCAPE) w).1.g_isQuitting = true ∧
    (∀ wParam, 255 < wParam →
      (WindowsMessageHandlingProcedure WM_CHAR wParam w).1.input.lastPressedChar
        = wParam % 256) := by
  refine ⟨?_, ?_, ?_⟩
  · rcases hcode with hc | hc | hc <;> subst hc
    · simp only [WindowsMessageHandlingProcedure, h]
      by_cases hk : wParam₂ % 256 = VK_ESCAPE <;>
        simp [WM_KEYDOWN, WM_CLOSE, WM_DESTROY, WM_QUIT, WM_CHAR, hk]
    · simp [WindowsMessageHandlingProcedure, h, WM_KEYDOWN, WM_KEYUP, WM_CLOSE, WM_DESTROY,
        WM_QUIT, WM_CHAR]
    · simp [WindowsMessageHandlingProcedure, h, WM_CLOSE, WM_DESTROY, WM_QUIT, WM_CHAR]
  · exact WindowsMessageHandlingProcedure_escape _ w (by simp [VK_ESCAPE])
  · intro wParam _
    simp [WindowsMessageHandlingProcedure, WM_CLOSE, WM_DESTROY, WM_QUIT, WM_CHAR,
      InputSystem.SetLastPressedChar]

theorem key_state_last_write_wins_witness :
    (∀ m ∈ exampleKeys, m.message = WM_KEYDOWN ∨ m.message = WM_KEYUP) ∧
    (RunMessagePump exampleKeys World.initial).input.isKeyDown 65 = false ∧
    (RunMessagePump exampleKeys World.initial).input.isKeyDown 66 = true :=
  have h : ∀ m ∈ exampleKeys, m.message = WM_KEYDOWN ∨ m.message = WM_KEYUP := by
    simp [exampleKeys]
  ⟨h,
   (key_state_last_write_wins exampleKeys World.initial 65 h).2.2 ⟨WM_KEYUP, 65⟩
     (by decide) rfl,
   ((key_state_last_write_wins exampleKeys World.initial 66 h).1 ⟨WM_KEYDOWN, 66⟩
     (by decide)).2 rfl⟩

theorem wParam_low_byte_only_witness :
    (WM_KEYDOWN = WM_KEYDOWN ∨ WM_KEYDOWN = WM_KEYUP ∨ WM_KEYDOWN = WM_CHAR) ∧
    27 % 256 = 283 % 256 ∧
    (WindowsMessageHandlingProcedure WM_KEYDOWN 27 World.initial).1.g_isQuitting
      = (WindowsMessageHandlingProcedure WM_KEYDOWN 283 World.initial).1.g_isQuitting ∧
    (WindowsMessageHandlingProcedure WM_KEYDOWN 27 World.initial).1.input.isKeyDown
      = (WindowsMessageHandlingProcedure WM_KEYDOWN 283 World.initial).1.input.isKeyDown :=
  ⟨Or.inl rfl, by decide,
   (wParam_low_byte_only WM_KEYDOWN 27 283 World.initial (Or.inl rfl) (by decide)).1.2.2,
   (wParam_low_byte_only WM_KEYDOWN 27 283 World.initial (Or.inl rfl) (by decide)).1.1⟩

/-! ## Frame driver: lemmas -/

theorem DispatchMessage_trace (m : MSG) (w : World) :
    (DispatchMessage m w).trace = w.trace ++ [Call.DispatchMessage m.message m.wParam] := by
  simp [DispatchMessage, WindowsMessageHandlingProcedure_trace, World.log]

theorem RunMessagePump_trace (queue : List MSG) (w : World) :
    (RunMessagePump queue w).trace
      = w.trace ++ queue.map (fun m => Call.DispatchMessage m.message m.wParam) := by
  induction queue generalizing w with
  | nil => simp [RunMessagePump]
  | cons m rest ih => simp [RunMessagePump, ih, DispatchMessage_trace]

theorem DispatchMessage_keeps_quitting (m : MSG) (w : World) (h : w.g_isQuitting = true) :
    (DispatchMessage m w).g_isQuitting = true :=
  WindowsMessageHandlingProcedure_keeps_quitting _ _ _ h

theorem RunMessagePump_keeps_quitting (queue : List MSG) (w : World)
    (h : w.g_isQuitting = true) : (RunMessagePump queue w).g_isQuitting = true := by
  induction queue generalizing w with
  | nil => simpa [RunMessagePump] using h
  | cons m rest ih =>
    rw [RunMessagePump]
    exact ih _ (DispatchMessage_keeps_quitting m w h)

/-- A queue that holds a key-down of escape leaves `g_isQuitting` set. -/
theorem RunMessagePump_escape (queue : List MSG) (w : World) (wParam : Nat)
    (hmem : ⟨WM_KEYDOWN, wParam⟩ ∈ queue) (hkey : wParam % 256 = VK_ESCAPE) :
    (RunMessagePump queue w).g_isQuitting = true := by
  induction queue generalizing w with
  | nil => cases hmem
  | cons m rest ih =>
    rw [RunMessagePump]
    rcases List.mem_cons.mp hmem with h | h
    · apply RunMessagePump_keeps_quitting
      rw [← h]
      exact WindowsMessageHandlingProcedure_escape wParam _ hkey
    · exact ih _ h

/-- The trace of one frame, and the quit flag it leaves: the flag is the one the
message pump left. -/
theorem RunFrame_spec (f : FrameInput) (w : World) :
    (RunFrame f w).g_isQuitting
      = (RunMessagePump f.queue
          ({ w with input := w.input.AdvanceFrameNumber }.log .AdvanceFrameNumber)).g_isQuitting ∧
    ∃ deltaSeconds : ℚ,
      (RunFrame f w).trace = w.trace ++ [Call.AdvanceFrameNumber]
        ++ f.queue.map (fun m => Call.DispatchMessage m.message m.wParam)
        ++ [Call.Update .AudioSystem deltaSeconds, Call.Update .InputSystem deltaSeconds,
            Call.Update .Console deltaSeconds, Call.Update .TheGame deltaSeconds,
            Call.Update .UISystem deltaSeconds,
            Call.Render .TheGame, Call.Render .Console, Call.SwapBuffers] := by
  refine ⟨by simp [RunFrame, Render, Update, World.log], ?_⟩
  refine ⟨f.timeNow - (match (RunMessagePump f.queue
      ({ w with input := w.input.AdvanceFrameNumber }.log .AdvanceFrameNumber)).s_timeLastFrameStarted
      with | some t => t | none => f.staticInitTime), ?_⟩
  simp [RunFrame, Render, Update, World.log, RunMessagePump_trace]

/-- C5. Every call of `RunFrame` makes the same sequence of calls: advance the
input frame number, dispatch the queued messages, `Update` on audio, input,
console, game, UI with one and the same `deltaSeconds`, `Render` on game and
console, and one buffer swap, which is the last call. -/
theorem RunFrame_fixed_sequence (f : FrameInput) (w : World) :
    ∃ deltaSeconds : ℚ,
      (RunFrame f w).trace = w.trace ++ [Call.AdvanceFrameNumber]
        ++ f.queue.map (fun m => Call.DispatchMessage m.message m.wParam)
        ++ [Call.Update .AudioSystem deltaSeconds, Call.Update .InputSystem deltaSeconds,
            Call.Update .Console deltaSeconds, Call.Update .TheGame deltaSeconds,
            Call.Update .UISystem deltaSeconds,
            Call.Render .TheGame, Call.Render .Console, Call.SwapBuffers] ∧
      (RunFrame f w).trace.getLast? = some Call.SwapBuffers ∧
      ((RunFrame f w).trace.drop w.trace.length).count Call.SwapBuffers = 1 := by
  obtain ⟨_, dt, h⟩ := RunFrame_spec f w
  refine ⟨dt, h, ?_, ?_⟩
  · have h' : (RunFrame f w).trace = (w.trace ++ [Call.AdvanceFrameNumber]
        ++ f.queue.map (fun m => Call.DispatchMessage m.message m.wParam)
        ++ [Call.Update .AudioSystem dt, Call.Update .InputSystem dt,
            Call.Update .Console dt, Call.Update .TheGame dt, Call.Update .UISystem dt,
            Call.Render .TheGame, Call.Render .Console]) ++ [Call.SwapBuffers] := by
      rw [h]
      simp
    rw [h']
    exact List.getLast?_concat _
  · rw [h]
    have hq : (f.queue.map (fun m => Call.DispatchMessage m.message m.wParam)).count
        Call.SwapBuffers = 0 := by
      rw [List.count_eq_zero]
      simp
    simp [List.append_assoc, List.drop_left, List.count_append, hq, List.count_cons]

/-- C4. A key-down of escape sets the quit flag from any state, no message
resets the flag, and the loop of `WinMain`, not quitting when a frame starts
whose queue holds a key-down of escape, runs that frame to its end (updates,
renders and buffer swap) and runs no further frame. -/
theorem escape_quits_after_current_frame (w : World) (f : FrameInput) (frames : List FrameInput)
    (wParam : Nat) (hrun : w.g_isQuitting = false)
    (hmem : ⟨WM_KEYDOWN, wParam⟩ ∈ f.queue) (hkey : wParam % 256 = VK_ESCAPE) :
    (∀ v : World, (WindowsMessageHandlingProcedure WM_KEYDOWN wParam v).1.g_isQuitting = true) ∧
    (∀ (wmMessageCode p : Nat) (v : World), v.g_isQuitting = true →
      (WindowsMessageHandlingProcedure wmMessageCode p v).1.g_isQuitting = true) ∧
    WinMain.loop (f :: frames) w = some (RunFrame f w) ∧
    (RunFrame f w).g_isQuitting = true ∧
    ∃ deltaSeconds : ℚ,
      (RunFrame f w).trace = w.trace ++ [Call.AdvanceFrameNumber]
        ++ f.queue.map (fun m => Call.DispatchMessage m.message m.wParam)
        ++ [Call.Update .AudioSystem deltaSeconds, Call.Update .InputSystem deltaSeconds,
            Call.Update .Console deltaSeconds, Call.Update .TheGame deltaSeconds,
            Call.Update .UISystem deltaSeconds,
            Call.Render .TheGame, Call.Render .Console, Call.SwapBuffers] := by
  obtain ⟨hq, htrace⟩ := RunFrame_spec f w
  have hquit : (RunFrame f w).g_isQuitting = true := by
    rw [hq]
    exact RunMessagePump_escape _ _ wParam hmem hkey
  refine ⟨fun v => WindowsMessageHandlingProcedure_escape wParam v hkey,
    fun c p v hv => WindowsMessageHandlingProcedure_keeps_quitting c p v hv, ?_, hquit, htrace⟩
  rw [WinMain.loop]
  simp only [hrun, Bool.false_eq_true, if_false]
  cases frames with
  | nil => simp [WinMain.loop, hquit]
  | cons g rest => simp [WinMain.loop, hquit]

theorem escape_quits_after_current_frame_witness :
    World.initial.g_isQuitting = false ∧
    WinMain.loop [escapeFrame, idleFrame] World.initial = some (RunFrame escapeFrame World.initial) ∧
    (RunFrame escapeFrame World.initial).g_isQuitting = true :=
  ⟨rfl,
   (escape_quits_after_current_frame World.initial escapeFrame [idleFrame] VK_ESCAPE rfl
     (by simp [escapeFrame]) (by decide)).2.2.1,
   (escape_quits_after_current_frame World.initial escapeFrame [idleFrame] VK_ESCAPE rfl
     (by simp [escapeFrame]) (by decide)).2.2.2.1⟩

/-! ## Context upgrade handshake -/

theorem constructed_append (a b : List Call) :
    constructed (a ++ b) = constructed a ++ constructed b := by
  induction a with
  | nil => rfl
  | cons c a ih => cases c <;> simp [constructed, ih]

theorem deleted_append (a b : List Call) :
    deleted (a ++ b) = deleted a ++ deleted b := by
  induction a with
  | nil => rfl
  | cons c a ih => cases c <;> simp [deleted, ih]

theorem deleteThenNull_trace (s : Subsystem) (w : World) :
    (setInstanceNull s (deleteInstance s w)).trace =
      w.trace ++ (if w.instanceSet s = true then [Call.delete s, Call.setNull s]
        else [Call.setNull s]) := by
  unfold setInstanceNull deleteInstance World.log
  by_cases h : w.instanceSet s = true <;> simp [h]

theorem deleteThenNull_instanceSet (s t : Subsystem) (w : World) :
    (setInstanceNull s (deleteInstance s w)).instanceSet t =
      if t = s then false else w.instanceSet t := by
  unfold setInstanceNull deleteInstance World.log
  by_cases h : w.instanceSet s = true <;> simp [h]

theorem EngineCleanup_trace (w : World) :
    (EngineCleanup w).trace = w.trace ++
      [Call.CleanUp .Texture, Call.CleanUp .BitmapFont, Call.CleanUp .EventSystem] := by
  simp [EngineCleanup, World.log]

theorem EngineCleanup_instanceSet (w : World) :
    (EngineCleanup w).instanceSet = w.instanceSet := rfl

/-- The calls of `Shutdown`, on any state: the three registry cleanups, then
for each singleton, in the order of the code, its deletion (when set) and its
nulling. -/
theorem Shutdown_trace (w : World) :
    (Shutdown w).trace = w.trace ++
      ([Call.CleanUp .Texture, Call.CleanUp .BitmapFont, Call.CleanUp .EventSystem] ++
        (deletionCalls w.instanceSet .TheGame ++ (deletionCalls w.instanceSet .UISystem ++
        (deletionCalls w.instanceSet .Console ++ (deletionCalls w.instanceSet .InputSystem ++
        (deletionCalls w.instanceSet .AudioSystem ++
        (deletionCalls w.instanceSet .ForwardRenderer ++
        deletionCalls w.instanceSet .Renderer))))))) := by
  unfold Shutdown
  simp only [deleteThenNull_trace, deleteThenNull_instanceSet, EngineCleanup_trace,
    EngineCleanup_instanceSet, deletionCalls, reduceCtorEq, if_false, List.append_assoc]

theorem Shutdown_instanceSet (w : World) (s : Subsystem) :
    (Shutdown w).instanceSet s = false := by
  unfold Shutdown
  cases s <;>
    simp only [deleteThenNull_instanceSet, reduceCtorEq, if_false, if_true]

theorem count_deletionCalls (isSet : Subsystem → Bool) (s t : Subsystem) :
    (deletionCalls isSet t).count (Call.delete s) = if t = s ∧ isSet t = true then 1 else 0 := by
  unfold deletionCalls
  by_cases e : t = s
  · subst e
    by_cases h : isSet t = true <;> simp [h, List.count_cons]
  · have e' : ¬ s = t := fun h => e h.symm
    by_cases h : isSet t = true <;> simp [h, e, e', List.count_cons]

theorem handshake_quiet (pf : Platform) (w : World) :
    (outcome (CreateOpenGLWindow.handshake pf w)).instanceSet = w.instanceSet ∧
    ∃ calls, (outcome (CreateOpenGLWindow.handshake pf w)).trace = w.trace ++ calls ∧
      constructed calls = [] := by
  unfold CreateOpenGLWindow.handshake
  simp only [wglMakeCurrent, World.log]
  split
  · refine ⟨rfl, ?_⟩
    simp only [outcome, List.append_assoc]
    exact ⟨_, rfl, by simp [constructed]⟩
  · refine ⟨rfl, ?_⟩
    simp only [outcome, List.append_assoc]
    exact ⟨_, rfl, by simp [constructed]⟩

theorem CreateOpenGLWindow_quiet (pf : Platform) (w : World) :
    (outcome (CreateOpenGLWindow pf w)).instanceSet = w.instanceSet ∧
    ∃ calls, (outcome (CreateOpenGLWindow pf w)).trace = w.trace ++ calls ∧
      constructed calls = [] := by
  unfold CreateOpenGLWindow
  simp only []
  generalize hw0 : World.log _ Call.SetCursor = w0
  have hi : w0.instanceSet = w.instanceSet := by subst hw0; rfl
  have ht : w0.trace = w.trace ++ [Call.RegisterClassEx, Call.GetClientRect pf.desktopClientRect,
      Call.AdjustWindowRectEx (placeWindow pf.desktopClientRect w.WINDOW_PHYSICAL_WIDTH
        w.WINDOW_PHYSICAL_HEIGHT w.g_isFullscreen).windowRect,
      Call.CreateWindowEx, Call.ShowWindow, Call.SetForegroundWindow, Call.SetFocus,
      Call.GetDC, Call.SetCursor] := by
    subst hw0; simp [World.log]
  generalize hpre : [Call.RegisterClassEx, Call.GetClientRect pf.desktopClientRect,
      Call.AdjustWindowRectEx (placeWindow pf.desktopClientRect w.WINDOW_PHYSICAL_WIDTH
        w.WINDOW_PHYSICAL_HEIGHT w.g_isFullscreen).windowRect,
      Call.CreateWindowEx, Call.ShowWindow, Call.SetForegroundWindow, Call.SetFocus,
      Call.GetDC, Call.SetCursor] = pre at ht
  have hp : constructed pre = [] := by subst hpre; simp [constructed]
  obtain ⟨h1, calls, h2, h3⟩ := handshake_quiet pf w0
  cases h : CreateOpenGLWindow.handshake pf w0 with
  | error w1 =>
    rw [h] at h1 h2
    simp only [outcome] at h1 h2 ⊢
    refine ⟨h1.trans hi, pre ++ calls, ?_, ?_⟩
    · rw [h2, ht, List.append_assoc]
    · simp [constructed_append, h3, hp]
  | ok w1 =>
    rw [h] at h1 h2
    simp only [outcome] at h1 h2 ⊢
    refine ⟨h1.trans hi, pre ++ (calls ++ [Call.DragAcceptFiles]), ?_, ?_⟩
    · simp [World.log, h2, ht]
    · simp [constructed_append, h3, hp, constructed]


theorem builtPrefix_log (n : Nat) (w0 w : World) (c : Call) (hc : constructed [c] = [])
    (h : builtPrefix n w0 w) : builtPrefix n w0 (w.log c) := by
  obtain ⟨h1, calls, h2, h3⟩ := h
  refine ⟨h1, calls ++ [c], ?_, ?_⟩
  · simp [World.log, h2]
  · rw [constructed_append, hc, h3, List.append_nil]

theorem builtPrefix_construct (constructorThrows : Subsystem → Bool) (n : Nat) (s : Subsystem)
    (arguments : List Int) (w0 w : World) (hs : constructionOrder.get? n = some s)
    (h : builtPrefix n w0 w) :
    (construct constructorThrows s arguments w = .error w) ∨
    (∃ w', construct constructorThrows s arguments w = .ok w' ∧ builtPrefix (n + 1) w0 w') := by
  obtain ⟨h1, calls, h2, h3⟩ := h
  unfold construct
  cases t : constructorThrows s with
  | true => left; simp
  | false =>
    right
    simp only [Bool.false_eq_true, if_false]
    refine ⟨_, rfl, ?_, calls ++ [Call.construct s arguments], ?_, ?_⟩
    · intro u
      have e : constructionOrder.take (n + 1) = constructionOrder.take n ++ [s] := by
        rw [List.take_succ]
        simp [List.get?_eq_getElem?] at hs
        simp [hs]
      simp only [World.log, e, List.mem_append, List.mem_singleton]
      by_cases hu : u = s
      · simp [hu]
      · simp [hu, h1 u]
    · simp [World.log, h2]
    · have e : constructionOrder.take (n + 1) = constructionOrder.take n ++ [s] := by
        rw [List.take_succ]
        simp [List.get?_eq_getElem?] at hs
        simp [hs]
      rw [constructed_append, h3, e]
      rfl


/-- What a run of `Initialize` leaves behind, whether it returns or is ended by
an exception: some first `n` subsystems of the construction order are
constructed and set, in that order, and nothing else is constructed; when the
run returns, all seven are. -/
theorem Initialize_prefix (pf : Platform) (constructorThrows : Subsystem → Bool) (w0 : World) :
    ∃ n, n ≤ 7 ∧ builtPrefix n w0 (outcome (Initialize pf constructorThrows w0)) ∧
      ((∃ w1, Initialize pf constructorThrows w0 = .ok w1) → n = 7) := by
  obtain ⟨hi, calls0, ht, hc⟩ := CreateOpenGLWindow_quiet pf (w0.log .SetProcessDPIAware)
  have b : builtPrefix 0 w0 (outcome (CreateOpenGLWindow pf (w0.log .SetProcessDPIAware))) :=
    ⟨by intro s; rw [hi]; simp [World.log, constructionOrder],
      [Call.SetProcessDPIAware] ++ calls0,
      by rw [ht]; simp [World.log], by simp [constructed_append, constructed, hc]⟩
  unfold Initialize
  simp only [bind, Except.bind]
  cases h : CreateOpenGLWindow pf (w0.log .SetProcessDPIAware) with
  | error w =>
    rw [h] at b
    exact ⟨0, by omega, b, by rintro ⟨w1, hw⟩; cases hw⟩
  | ok w =>
    rw [h] at b
    simp only [outcome] at b
    clear h hi ht
    rcases builtPrefix_construct constructorThrows 0 .Renderer [w.WINDOW_PHYSICAL_WIDTH, w.WINDOW_PHYSICAL_HEIGHT]
        w0 w rfl b with e | ⟨w1, e, b1⟩
    · simp only [e, outcome]
      exact ⟨0, by omega, b, by rintro ⟨w1, hw⟩; cases hw⟩
    simp only [e]
    clear e b
    have b := builtPrefix_log 1 w0 w1 .CreateDefaultResources rfl b1
    clear b1
    generalize w1.log .CreateDefaultResources = w at b ⊢
    clear w1
    rcases builtPrefix_construct constructorThrows 1 .ForwardRenderer []
        w0 w rfl b with e | ⟨w2, e, b2⟩
    · simp only [e, outcome]
      exact ⟨1, by omega, b, by rintro ⟨w1, hw⟩; cases hw⟩
    simp only [e]
    clear e b
    clear w
    revert b2
    generalize w2 = w
    intro b
    rcases builtPrefix_construct constructorThrows 2 .AudioSystem []
        w0 w rfl b with e | ⟨w3, e, b3⟩
    · simp only [e, outcome]
      exact ⟨2, by omega, b, by rintro ⟨w1, hw⟩; cases hw⟩
    simp only [e]
    clear e b
    clear w
    revert b3
    generalize w3 = w
    intro b
    rcases builtPrefix_construct constructorThrows 3 .InputSystem [0, w.WINDOW_PHYSICAL_WIDTH, w.WINDOW_PHYSICAL_HEIGHT]
        w0 w rfl b with e | ⟨w4, e, b4⟩
    · simp only [e, outcome]
      exact ⟨3, by omega, b, by rintro ⟨w1, hw⟩; cases hw⟩
    simp only [e]
    clear e b
    clear w
    revert b4
    generalize w4 = w
    intro b
    rcases builtPrefix_construct constructorThrows 4 .Console []
        w0 w rfl b with e | ⟨w5, e, b5⟩
    · simp only [e, outcome]
      exact ⟨4, by omega, b, by rintro ⟨w1, hw⟩; cases hw⟩
    simp only [e]
    clear e b
    clear w
    revert b5
    generalize w5 = w
    intro b
    rcases builtPrefix_construct constructorThrows 5 .UISystem []
        w0 w rfl b with e | ⟨w6, e, b6⟩
    · simp only [e, outcome]
      exact ⟨5, by omega, b, by rintro ⟨w1, hw⟩; cases hw⟩
    simp only [e]
    clear e b
    clear w
    revert b6
    generalize w6 = w
    intro b
    rcases builtPrefix_construct constructorThrows 6 .TheGame []
        w0 w rfl b with e | ⟨w7, e, b7⟩
    · simp only [e, outcome]
      exact ⟨6, by omega, b, by rintro ⟨w1, hw⟩; cases hw⟩
    simp only [e]
    clear e b
    exact ⟨7, by omega, b7, fun _ => rfl⟩


theorem Shutdown_delete_count (w : World) (s : Subsystem) :
    ((Shutdown w).trace.drop w.trace.length).count (Call.delete s) =
      if w.instanceSet s = true then 1 else 0 := by
  rw [Shutdown_trace, List.drop_left]
  simp only [List.count_append, count_deletionCalls]
  cases s <;> simp [List.count_cons]

/-- C6.  When `Initialize` returns, it has constructed Renderer,
ForwardRenderer, AudioSystem, InputSystem, Console, UISystem, TheGame in that
order; `Shutdown` then runs the three registry cleanups first and deletes the
seven subsystems in exactly the reverse order, nulling each pointer right
after its deletion, so that every pointer is null when `Shutdown` returns. -/
theorem Shutdown_reverses_Initialize (pf : Platform) (constructorThrows : Subsystem → Bool)
    (w0 w1 : World) (h : Initialize pf constructorThrows w0 = .ok w1) :
    constructed (w1.trace.drop w0.trace.length) =
      [.Renderer, .ForwardRenderer, .AudioSystem, .InputSystem, .Console, .UISystem,
        .TheGame] ∧
    (Shutdown w1).trace = w1.trace ++
      [Call.CleanUp .Texture, Call.CleanUp .BitmapFont, Call.CleanUp .EventSystem,
       Call.delete .TheGame, Call.setNull .TheGame,
       Call.delete .UISystem, Call.setNull .UISystem,
       Call.delete .Console, Call.setNull .Console,
       Call.delete .InputSystem, Call.setNull .InputSystem,
       Call.delete .AudioSystem, Call.setNull .AudioSystem,
       Call.delete .ForwardRenderer, Call.setNull .ForwardRenderer,
       Call.delete .Renderer, Call.setNull .Renderer] ∧
    deleted ((Shutdown w1).trace.drop w1.trace.length) =
      (constructed (w1.trace.drop w0.trace.length)).reverse ∧
    ∀ s, (Shutdown w1).instanceSet s = false := by
  obtain ⟨n, _, ⟨hset, calls, htrace, hcalls⟩, hn⟩ := Initialize_prefix pf constructorThrows w0
  have h7 : n = 7 := hn ⟨w1, h⟩
  subst h7
  rw [h] at hset htrace
  simp only [outcome] at hset htrace
  have hall : ∀ s, w1.instanceSet s = true := by
    intro s
    rw [hset s]
    cases s <;> simp [constructionOrder]
  have hc : constructed (w1.trace.drop w0.trace.length) =
      [.Renderer, .ForwardRenderer, .AudioSystem, .InputSystem, .Console, .UISystem,
        .TheGame] := by
    rw [htrace, List.drop_left, hcalls]
    rfl
  have ht : (Shutdown w1).trace = w1.trace ++
      [Call.CleanUp .Texture, Call.CleanUp .BitmapFont, Call.CleanUp .EventSystem,
       Call.delete .TheGame, Call.setNull .TheGame,
       Call.delete .UISystem, Call.setNull .UISystem,
       Call.delete .Console, Call.setNull .Console,
       Call.delete .InputSystem, Call.setNull .InputSystem,
       Call.delete .AudioSystem, Call.setNull .AudioSystem,
       Call.delete .ForwardRenderer, Call.setNull .ForwardRenderer,
       Call.delete .Renderer, Call.setNull .Renderer] := by
    rw [Shutdown_trace]
    simp [deletionCalls, hall]
  refine ⟨hc, ht, ?_, Shutdown_instanceSet w1⟩
  rw [hc, ht, List.drop_left]
  rfl

theorem Shutdown_reverses_Initialize_witness :
    Initialize capablePlatform noneThrows World.initial = .ok initializedWorld ∧
    (constructed (initializedWorld.trace.drop World.initial.trace.length) =
      [.Renderer, .ForwardRenderer, .AudioSystem, .InputSystem, .Console, .UISystem,
        .TheGame] ∧
    (Shutdown initializedWorld).trace = initializedWorld.trace ++
      [Call.CleanUp .Texture, Call.CleanUp .BitmapFont, Call.CleanUp .EventSystem,
       Call.delete .TheGame, Call.setNull .TheGame,
       Call.delete .UISystem, Call.setNull .UISystem,
       Call.delete .Console, Call.setNull .Console,
       Call.delete .InputSystem, Call.setNull .InputSystem,
       Call.delete .AudioSystem, Call.setNull .AudioSystem,
       Call.delete .ForwardRenderer, Call.setNull .ForwardRenderer,
       Call.delete .Renderer, Call.setNull .Renderer] ∧
    deleted ((Shutdown initializedWorld).trace.drop initializedWorld.trace.length) =
      (constructed (initializedWorld.trace.drop World.initial.trace.length)).reverse ∧
    ∀ s, (Shutdown initializedWorld).instanceSet s = false) :=
  ⟨rfl, Shutdown_reverses_Initialize capablePlatform noneThrows World.initial initializedWorld rfl⟩

/-- C7.  Whether `Initialize` returns or is ended by an exception at any point,
from a start in which every singleton pointer is null: the subsystems
constructed are some first `n` of the construction order and exactly their
pointers are set; a following `Shutdown` deletes each of them exactly once and
no other subsystem, nulls each pointer right after the deletion, leaves every
pointer null, and a second `Shutdown` deletes nothing. -/
theorem Shutdown_never_double_deletes (pf : Platform) (constructorThrows : Subsystem → Bool)
    (w0 w1 : World) (h0 : ∀ s, w0.instanceSet s = false)
    (h1 : outcome (Initialize pf constructorThrows w0) = w1) :
    ∃ n, n ≤ 7 ∧
      constructed (w1.trace.drop w0.trace.length) = constructionOrder.take n ∧
      (∀ s, w1.instanceSet s = true ↔ s ∈ constructionOrder.take n) ∧
      (∀ s, ((Shutdown w1).trace.drop w1.trace.length).count (Call.delete s) =
        if s ∈ constructionOrder.take n then 1 else 0) ∧
      (Shutdown w1).trace = w1.trace ++
        ([Call.CleanUp .Texture, Call.CleanUp .BitmapFont, Call.CleanUp .EventSystem] ++
          (deletionCalls w1.instanceSet .TheGame ++ (deletionCalls w1.instanceSet .UISystem ++
          (deletionCalls w1.instanceSet .Console ++ (deletionCalls w1.instanceSet .InputSystem ++
          (deletionCalls w1.instanceSet .AudioSystem ++
          (deletionCalls w1.instanceSet .ForwardRenderer ++
          deletionCalls w1.instanceSet .Renderer))))))) ∧
      (∀ s, (Shutdown w1).instanceSet s = false) ∧
      (∀ s, Call.delete s ∉
        (Shutdown (Shutdown w1)).trace.drop (Shutdown w1).trace.length) := by
  obtain ⟨n, hn, ⟨hset, calls, htrace, hcalls⟩, _⟩ := Initialize_prefix pf constructorThrows w0
  rw [h1] at hset htrace
  have hiff : ∀ s, w1.instanceSet s = true ↔ s ∈ constructionOrder.take n := by
    intro s
    rw [hset s, h0 s]
    simp
  refine ⟨n, hn, ?_, hiff, ?_, Shutdown_trace w1, Shutdown_instanceSet w1, ?_⟩
  · rw [htrace, List.drop_left, hcalls]
  · intro s
    rw [Shutdown_delete_count]
    by_cases hs : s ∈ constructionOrder.take n
    · simp [hs, (hiff s).2 hs]
    · have : ¬ w1.instanceSet s = true := fun h => hs ((hiff s).1 h)
      simp [hs, this]
  · intro s hmem
    have hcount := Shutdown_delete_count (Shutdown w1) s
    rw [Shutdown_instanceSet w1 s] at hcount
    simp only [Bool.false_eq_true, if_false] at hcount
    exact (List.count_eq_zero.1 hcount) hmem

theorem Shutdown_never_double_deletes_witness :
    (∀ s, World.initial.instanceSet s = false) ∧
    outcome (Initialize capablePlatform audioThrows World.initial) = audioFailedWorld ∧
    ∃ n, n ≤ 7 ∧
      constructed (audioFailedWorld.trace.drop World.initial.trace.length) =
        constructionOrder.take n ∧
      (∀ s, audioFailedWorld.instanceSet s = true ↔ s ∈ constructionOrder.take n) ∧
      (∀ s, ((Shutdown audioFailedWorld).trace.drop audioFailedWorld.trace.length).count
          (Call.delete s) = if s ∈ constructionOrder.take n then 1 else 0) ∧
      (Shutdown audioFailedWorld).trace = audioFailedWorld.trace ++
        ([Call.CleanUp .Texture, Call.CleanUp .BitmapFont, Call.CleanUp .EventSystem] ++
          (deletionCalls audioFailedWorld.instanceSet .TheGame ++
          (deletionCalls audioFailedWorld.instanceSet .UISystem ++
          (deletionCalls audioFailedWorld.instanceSet .Console ++
          (deletionCalls audioFailedWorld.instanceSet .InputSystem ++
          (deletionCalls audioFailedWorld.instanceSet .AudioSystem ++
          (deletionCalls audioFailedWorld.instanceSet .ForwardRenderer ++
          deletionCalls audioFailedWorld.instanceSet .Renderer))))))) ∧
      (∀ s, (Shutdown audioFailedWorld).instanceSet s = false) ∧
      (∀ s, Call.delete s ∉
        (Shutdown (Shutdown audioFailedWorld)).trace.drop
          (Shutdown audioFailedWorld).trace.length) :=
  ⟨fun _ => rfl, rfl,
    Shutdown_never_double_deletes capablePlatform audioThrows World.initial audioFailedWorld
      (fun _ => rfl) rfl⟩

end Protogame
